import Mathlib

/-!
# Verification of the nepher-subnet tournament orchestration core

A shallow embedding, in Lean 4, of the parts of the `nepher-ai/nepher-subnet`
repository that the specification's claims are about:

* the period classifier `get_current_period` (src/validator/state.py) over the
  pydantic `Tournament` model (src/nepher_core/api/models.py);
* the HTTP error taxonomy and retry layer of `TournamentAPI`
  (src/nepher_core/api/client.py: `_handle_error_response`, `_request`,
  `get_active_tournament`);
* the per-agent evaluation pipeline `AgentEvaluator.evaluate`
  (src/validator/evaluation/agent_evaluator.py), including its unconditional
  `finally` cleanup and the result-collection step `_collect_result`;
* the evaluation orchestrator `_process_pending_agents` / `run_evaluation_loop`
  (src/validator/evaluation/orchestrator.py);
* the reward settler `WeightSetter` (src/validator/reward/weight_setter.py).

Python effects are made explicit: fallible code is embedded with `Except` /
`Option`, exceptions are values, and side effects (backend submissions,
file-system cleanup, weight publications) are collected in explicit traces so
that theorems can talk about which effects a run performs.
-/

namespace Nepher

/-! ## Period classifier (src/validator/state.py)

`TournamentPeriod` embeds the `TournamentPeriod(Enum)` of src/validator/state.py
lines 20-29.  The enum declares exactly these seven members; in particular it
has no `PUBLIC_EVALUATION` and no `QUIET_ZONE` member, although
src/validator/main.py lines 193 and 198 pattern-match on
`TournamentPeriod.PUBLIC_EVALUATION` and `TournamentPeriod.QUIET_ZONE`. -/

inductive TournamentPeriod
  | NO_TOURNAMENT
  | CONTEST
  | SUBMIT_WINDOW
  | EVALUATION
  | REVIEW
  | REWARD
  | COMPLETED
  deriving DecidableEq, Repr

/-- The pydantic `Tournament` model of src/nepher_core/api/models.py lines 8-34.
Only the timestamp and status fields are relevant here.  The model declares the
timestamp fields `contest_start_time`, `grace_window_start_time`,
`contest_end_time`, `evaluation_end_time`, `reward_end_time`, each
`Optional[int] = None`; its config is `extra = "ignore"`, so any further fields
in a backend response are dropped and are not attributes of the object. -/
structure Tournament where
  id : String
  status : String
  contest_start_time : Option Int := none
  grace_window_start_time : Option Int := none
  contest_end_time : Option Int := none
  evaluation_end_time : Option Int := none
  reward_end_time : Option Int := none
  deriving DecidableEq, Repr

/-- A Python runtime exception, as far as the period classifier can raise one. -/
inductive PyExn
  | attributeError (attr : String)
  | typeError (msg : String)
  deriving DecidableEq, Repr

/-- Attribute lookup `t.<name>` on a `Tournament` pydantic object.  Exactly the
fields declared by the model resolve; any other attribute name raises
`AttributeError` (pydantic models with `extra = "ignore"` do not keep
undeclared fields). -/
def Tournament.getattr (t : Tournament) (name : String) : Except PyExn (Option Int) :=
  if name = "contest_start_time" then .ok t.contest_start_time
  else if name = "grace_window_start_time" then .ok t.grace_window_start_time
  else if name = "contest_end_time" then .ok t.contest_end_time
  else if name = "evaluation_end_time" then .ok t.evaluation_end_time
  else if name = "reward_end_time" then .ok t.reward_end_time
  else .error (.attributeError name)

/-- `current_time < v` where `v` is an `Optional[int]` field: comparing an
`int` with `None` raises `TypeError` in Python. -/
def pyLtOpt (now : Int) (v : Option Int) : Except PyExn Bool :=
  match v with
  | none => .error (.typeError "int < NoneType")
  | some x => .ok (decide (now < x))

/-- Python truthiness of an `Optional[int]` value: `None` and `0` are falsy. -/
def pyTruthyOptInt : Option Int → Bool
  | none => false
  | some x => x != 0

/-- `get_current_period` of src/validator/state.py lines 32-81, embedded line by
line.  Attribute reads go through `Tournament.getattr` in source order: note
that lines 61 and 73 of state.py read `tournament.submit_window_start_time` and
`tournament.reward_start_time`, neither of which is a declared field of the
`Tournament` model. -/
def get_current_period (tournament : Option Tournament) (current_time : Int) :
    Except PyExn TournamentPeriod := do
  match tournament with
  | none => return .NO_TOURNAMENT
  | some t =>
    if t.status = "done" ∨ t.status = "cancelled" then
      return .COMPLETED
    if (← pyLtOpt current_time (← t.getattr "contest_start_time")) then
      return .NO_TOURNAMENT
    if (← pyLtOpt current_time (← t.getattr "submit_window_start_time")) then
      return .CONTEST
    if (← pyLtOpt current_time (← t.getattr "contest_end_time")) then
      return .SUBMIT_WINDOW
    if (← pyLtOpt current_time (← t.getattr "evaluation_end_time")) then
      return .EVALUATION
    let rst ← t.getattr "reward_start_time"
    if pyTruthyOptInt rst then
      if (← pyLtOpt current_time rst) then
        return .REVIEW
    if (← pyLtOpt current_time (← t.getattr "reward_end_time")) then
      return .REWARD
    return .COMPLETED

end Nepher

namespace Nepher

/-- A concrete active tournament with fully populated, monotone boundaries, as
the model declares them. -/
def sampleTournament : Tournament :=
  { id := "t1"
    status := "active"
    contest_start_time := some 0
    grace_window_start_time := some 100
    contest_end_time := some 200
    evaluation_end_time := some 300
    reward_end_time := some 400 }

end Nepher

/-- **C1.** The period classifier is not total on the code as written: for an
active tournament whose declared timestamp fields are all populated and
monotone, and a current time past `contest_start_time`, `get_current_period`
raises `AttributeError` at state.py line 61, because it reads
`tournament.submit_window_start_time` while the `Tournament` pydantic model
declares no such field (models.py declares `grace_window_start_time` instead,
and no `reward_start_time` at all).  The claim says the classifier is total
(never throws) and classifies by sequential boundary comparison. -/
theorem c1_period_classifier_raises :
    Nepher.get_current_period (some Nepher.sampleTournament) 50
      = Except.error (Nepher.PyExn.attributeError "submit_window_start_time") := by
  rfl

namespace Nepher

/-! ## HTTP error taxonomy and retry layer (src/nepher_core/api/client.py)

`_handle_error_response` (client.py lines 117-168) maps an HTTP status code to
one of the exception classes of src/nepher_core/api/exceptions.py; all of them
are subclasses of `APIError`.  The `_request` method (lines 170-220) is wrapped
in a tenacity `@retry` decorator with `stop=stop_after_attempt(3)` and
`retry=retry_if_exception_type((httpx.TransportError, RateLimitError))`. -/

/-- The concrete `APIError` subclass raised by `_handle_error_response`, plus
the base class itself for any other `>= 400` status and for the
`expect_json` content-type guard. -/
inductive APIErrorKind
  | authentication          -- 401 / 403
  | notFound                -- 404
  | validation              -- 400 / 422
  | quietZone               -- 409
  | rateLimit               -- 429
  | generic (status : Nat)  -- any other status >= 400, and the non-JSON-200 guard
  deriving DecidableEq, Repr

/-- `_handle_error_response` (client.py lines 152-168): the status-code
dispatch.  (It is only called with `status >= 400`, except through the
`expect_json` guard which raises the base `APIError` directly.) -/
def handle_error_response (status : Nat) : APIErrorKind :=
  if status = 401 ∨ status = 403 then .authentication
  else if status = 404 then .notFound
  else if status = 400 ∨ status = 422 then .validation
  else if status = 409 then .quietZone
  else if status = 429 then .rateLimit
  else .generic status

/-- An error that one HTTP attempt inside `_request` can raise:
an `httpx.TransportError`, or an `APIError` subclass. -/
inductive RequestError
  | transport
  | api (k : APIErrorKind)
  deriving DecidableEq, Repr

/-- What the network does on one attempt: a transport-level failure, or a
response with a status code and a flag for whether the body/content-type is
JSON. -/
inductive AttemptOutcome
  | transportError
  | response (status : Nat) (jsonBody : Bool)
  deriving DecidableEq, Repr

/-- The body of `_request` (client.py lines 194-220) for a single attempt,
with the default `expect_json=True`: statuses `>= 400` go through
`_handle_error_response`; a 200 response whose content-type is not JSON raises
the base `APIError`; otherwise the response is returned. -/
def request_attempt (o : AttemptOutcome) : Except RequestError Nat :=
  match o with
  | .transportError => .error .transport
  | .response status jsonBody =>
    if status ≥ 400 then .error (.api (handle_error_response status))
    else if status = 200 ∧ jsonBody = false then .error (.api (.generic 200))
    else .ok status

/-- The tenacity retry predicate
`retry_if_exception_type((httpx.TransportError, RateLimitError))`
(client.py line 173). -/
def shouldRetry : RequestError → Bool
  | .transport => true
  | .api .rateLimit => true
  | .api _ => false

/-- What `_request` finally raises to its caller: a non-retryable exception is
raised straight through; when the retryable-error budget is exhausted,
tenacity raises a `RetryError` wrapping the last attempt's exception. -/
inductive FinalError
  | direct (e : RequestError)
  | retryExhausted (last : RequestError)
  deriving DecidableEq, Repr

/-- The tenacity-wrapped `_request` loop: `outcomes i` is what the network does
on the (i+1)-th attempt; `remaining` counts the retries still allowed after the
current attempt.  Returns the result together with the number of attempts
actually performed. -/
def request_retry_aux (outcomes : Nat → AttemptOutcome) (i : Nat) :
    Nat → (Except FinalError Nat) × Nat
  | 0 =>
    match request_attempt (outcomes i) with
    | .ok s => (.ok s, i + 1)
    | .error e =>
      if shouldRetry e then (.error (.retryExhausted e), i + 1)
      else (.error (.direct e), i + 1)
  | r + 1 =>
    match request_attempt (outcomes i) with
    | .ok s => (.ok s, i + 1)
    | .error e =>
      if shouldRetry e then request_retry_aux outcomes (i + 1) r
      else (.error (.direct e), i + 1)

/-- `_request` with its decorator `stop=stop_after_attempt(3)`: at most three
attempts. -/
def request (outcomes : Nat → AttemptOutcome) : (Except FinalError Nat) × Nat :=
  request_retry_aux outcomes 0 2

end Nepher

/-- **C7.** The retry layer of `_request`: (a) exactly transport errors and
rate-limit responses are retryable; (b) a transport error on every attempt but
the last still lets the final (third) attempt succeed; (c) a transport error on
all three attempts exhausts the retries and surfaces that error (wrapped in
tenacity's `RetryError`); (d) a 401 authentication error and a 422 validation
error propagate after exactly one attempt, with no retry. -/
theorem c7_request_retry_policy :
    (∀ e, Nepher.shouldRetry e = true ↔
        (e = .transport ∨ e = .api .rateLimit))
    ∧ (∀ outcomes : Nat → Nepher.AttemptOutcome,
        outcomes 0 = .transportError → outcomes 1 = .transportError →
        outcomes 2 = .response 200 true →
        Nepher.request outcomes = (.ok 200, 3))
    ∧ (∀ outcomes : Nat → Nepher.AttemptOutcome,
        (∀ i, i < 3 → outcomes i = .transportError) →
        Nepher.request outcomes = (.error (.retryExhausted .transport), 3))
    ∧ (∀ outcomes : Nat → Nepher.AttemptOutcome,
        outcomes 0 = .response 401 true →
        Nepher.request outcomes = (.error (.direct (.api .authentication)), 1))
    ∧ (∀ outcomes : Nat → Nepher.AttemptOutcome,
        outcomes 0 = .response 422 true →
        Nepher.request outcomes = (.error (.direct (.api .validation)), 1)) := by
  refine ⟨?_, ?_, ?_, ?_, ?_⟩
  · intro e
    cases e with
    | transport => simp [Nepher.shouldRetry]
    | api k => cases k <;> simp [Nepher.shouldRetry]
  · intro outcomes h0 h1 h2
    simp [Nepher.request, Nepher.request_retry_aux, h0, h1, h2,
      Nepher.request_attempt, Nepher.shouldRetry]
  · intro outcomes h
    have h0 := h 0 (by omega)
    have h1 := h 1 (by omega)
    have h2 := h 2 (by omega)
    simp [Nepher.request, Nepher.request_retry_aux, h0, h1, h2,
      Nepher.request_attempt, Nepher.shouldRetry]
  · intro outcomes h0
    simp [Nepher.request, Nepher.request_retry_aux, h0,
      Nepher.request_attempt, Nepher.handle_error_response, Nepher.shouldRetry]
  · intro outcomes h0
    simp [Nepher.request, Nepher.request_retry_aux, h0,
      Nepher.request_attempt, Nepher.handle_error_response, Nepher.shouldRetry]

/-- Witness for C7: each conjunct of `c7_request_retry_policy` applied at a
concrete outcome sequence. -/
theorem c7_request_retry_policy_witness :
    Nepher.request (fun i => if i < 2 then .transportError else .response 200 true)
        = (.ok 200, 3)
    ∧ Nepher.request (fun _ => .transportError)
        = (.error (.retryExhausted .transport), 3)
    ∧ Nepher.request (fun _ => .response 401 true)
        = (.error (.direct (.api .authentication)), 1)
    ∧ Nepher.request (fun _ => .response 422 true)
        = (.error (.direct (.api .validation)), 1) :=
  ⟨c7_request_retry_policy.2.1 _ rfl rfl rfl,
   c7_request_retry_policy.2.2.1 _ (fun _ _ => rfl),
   c7_request_retry_policy.2.2.2.1 _ rfl,
   c7_request_retry_policy.2.2.2.2 _ rfl⟩

namespace Nepher

/-! ## `get_active_tournament` (client.py lines 226-262) and the control loop
(src/validator/main.py lines 112-157) -/

/-- A successful `_request` outcome for `GET /api/v1/tournaments/active`:
either an empty/falsy JSON body (`if data:` fails) or tournament data. -/
inductive ActiveTournamentBody
  | emptyBody
  | tournamentData (t : Tournament)
  deriving DecidableEq, Repr

/-- `get_active_tournament`: on an empty body or a `NotFoundError` it returns
`None`; the final `except APIError` clause also turns every other `APIError`
subclass raised directly by `_request` (server errors, authentication,
validation, quiet-zone, the non-JSON guard) into `None`.  A tenacity
`RetryError` (exhausted transport/rate-limit retries) is not an `APIError` and
propagates. -/
def get_active_tournament (r : Except FinalError ActiveTournamentBody) :
    Except FinalError (Option Tournament) :=
  match r with
  | .ok .emptyBody => .ok none
  | .ok (.tournamentData t) => .ok (some t)
  | .error (.direct (.api _)) => .ok none
  | .error e => .error e

/-- What one iteration of `_main_loop` (main.py lines 121-157) does with the
result of `get_active_tournament`. -/
inductive LoopAction
  | sleepNoTournament (secs : Nat)   -- main.py lines 129-134
  | handlePeriod (t : Tournament)     -- main.py lines 141-150
  | errorBackoff (secs : Nat)         -- main.py lines 152-157
  deriving DecidableEq, Repr

/-- `ValidatorOrchestrator.NO_TOURNAMENT_INTERVAL = 300` (main.py line 51). -/
def NO_TOURNAMENT_INTERVAL : Nat := 300

/-- `ValidatorOrchestrator.ERROR_INTERVAL = 60` (main.py line 55). -/
def ERROR_INTERVAL : Nat := 60

/-- One iteration of `_main_loop`, from the raw `_request` outcome: a `None`
tournament sleeps `NO_TOURNAMENT_INTERVAL`; an exception escaping
`get_active_tournament` is caught by the iteration's blanket handler, which
sleeps `ERROR_INTERVAL`. -/
def main_loop_step (r : Except FinalError ActiveTournamentBody) : LoopAction :=
  match get_active_tournament r with
  | .ok none => .sleepNoTournament NO_TOURNAMENT_INTERVAL
  | .ok (some t) => .handlePeriod t
  | .error _ => .errorBackoff ERROR_INTERVAL

end Nepher

/-- **C10.** `get_active_tournament` returns `None` not only on 404/empty but
on every `APIError`-class response (server 500, authentication, validation,
quiet-zone conflict, rate limit raised directly), and the control loop then
takes the long no-tournament sleep; only non-`APIError` failures — a tenacity
`RetryError` from exhausted transport or rate-limit retries — propagate, and
those reach the control loop's error handler instead. -/
theorem c10_get_active_tournament_swallows_api_errors :
    (∀ k : Nepher.APIErrorKind,
        Nepher.get_active_tournament (.error (.direct (.api k))) = .ok none
        ∧ Nepher.main_loop_step (.error (.direct (.api k)))
            = .sleepNoTournament 300)
    ∧ (∀ e : Nepher.RequestError,
        Nepher.get_active_tournament (.error (.retryExhausted e))
            = .error (.retryExhausted e)
        ∧ Nepher.main_loop_step (.error (.retryExhausted e)) = .errorBackoff 60)
    ∧ Nepher.get_active_tournament (.ok .emptyBody) = .ok none := by
  refine ⟨?_, ?_, rfl⟩
  · intro k
    exact ⟨rfl, rfl⟩
  · intro e
    exact ⟨rfl, rfl⟩

namespace Nepher

/-! ## Per-agent evaluation pipeline (src/validator/evaluation/agent_evaluator.py)

`AgentEvaluator.evaluate` (lines 76-112) runs, inside a `try` block:
`_clean_previous_state` → `_prepare_agent` → `set_evaluation_in_progress` →
`_install_agent_module` → `_run_evaluation` (which ends in `_collect_result`)
→ `_submit_results`; an `except EvaluationError: raise` clause re-raises
`EvaluationError` unchanged, a blanket `except Exception` clause wraps every
other exception — `QuietZoneError` and the rest of the `APIError` family
included — into `EvaluationError(str(e), recoverable=True)`, and a `finally`
clause runs `_cleanup`.  The embedding makes each step's outcome an input (the
environment) and collects the observable effects of a run in a trace. -/

/-- Outcome of one backend API call made inside the pipeline: success, a 409
`QuietZoneError` (carrying its message), or any other failure. -/
inductive ApiRes
  | ok
  | quietZone (msg : String)
  | fail (msg : String)
  deriving DecidableEq, Repr

/-- Outcome of the external evaluation subprocess (`run_command_async` in
`_run_evaluation`): a timeout (which re-raises `asyncio.TimeoutError`) or an
exit code. -/
inductive RunRes
  | timeout
  | exit (code : Int)
  deriving DecidableEq, Repr

/-- The parsed content of `evaluation_result.json` that the pipeline reads and
submits (agent_evaluator.py lines 319-323 and 337-345). -/
structure ResultData where
  score : Int
  summary : String
  deriving DecidableEq, Repr

/-- An `EvaluationError(message, recoverable)`
(agent_evaluator.py lines 36-42; `recoverable` defaults to `True`). -/
structure EvalErr where
  message : String
  recoverable : Bool
  deriving DecidableEq, Repr

/-- Observable effects of one run of the pipeline and of the orchestrator's
per-agent handling. -/
inductive Effect
  | cleanPrevious               -- _clean_previous_state completed
  | download                    -- _prepare_agent completed
  | markInProgress              -- set_evaluation_in_progress succeeded
  | install                     -- _install_agent_module completed
  | run                         -- evaluation subprocess exited 0
  | collect                     -- _collect_result returned a result
  | submitOk (score : Int)      -- submit_evaluation completed
  | submitFailed (score : Int) (summary : String)
                                -- submit_failed_evaluation completed
  | cleanupUninstall            -- _cleanup: pip uninstall step completed
  | cleanupRemoveFiles          -- _cleanup: result/config scratch files removed
  | cleanupCleanRegistry        -- _cleanup: extracted agent tree removed
  | cleanupClearMarkerAttempt   -- _cleanup: clear_evaluation_in_progress called
  | cleanupClearMarkerDone      -- _cleanup: the clear call succeeded
  deriving DecidableEq, Repr

/-- The environment of the `try`-block body of `evaluate`: every point where
the code can observe a failure, in source order. -/
structure BodyEnv where
  clean_ok : Bool                       -- _clean_previous_state
  download : ApiRes                     -- download_agent inside _prepare_agent
  mark : ApiRes                         -- set_evaluation_in_progress
  module_source_found : Bool            -- _find_module_source
  install_exit : Int                    -- pip install return code
  eval_script_exists : Bool             -- scripts/evaluate.py present
  task_config_file_exists : Bool        -- workspace/task_config.yaml present
  run_result : RunRes                   -- the evaluation subprocess
  workspace_result : Option ResultData  -- evaluation_result.json at the workspace path
  cwd_result : Option ResultData        -- evaluation_result.json in the eval_repo cwd
  submit : ApiRes                       -- submit_evaluation
  deriving DecidableEq, Repr

/-- `_collect_result` (agent_evaluator.py lines 304-323): if the canonical
workspace file is missing but the cwd copy exists, the cwd copy is moved to the
canonical path (the returned flag records that move); if the file then still
does not exist, `EvaluationError("evaluation_result.json not generated")` is
raised — with the constructor's default `recoverable=True`. -/
def collect_result (workspace_result cwd_result : Option ResultData) :
    Except EvalErr (ResultData × Bool) :=
  match workspace_result, cwd_result with
  | some r, _ => .ok (r, false)
  | none, some r => .ok (r, true)
  | none, none => .error { message := "evaluation_result.json not generated", recoverable := true }

/-- Result of the `try`-block body: normal completion or a raised
`EvaluationError` (after the wrapping of the two `except` clauses: a
non-`EvaluationError` exception — transport, `APIError`, `QuietZoneError`,
`TimeoutError` — becomes `EvaluationError(str(e), recoverable=True)`). -/
inductive BodyResult
  | success
  | raised (e : EvalErr)
  deriving DecidableEq, Repr

/-- The `try`-block body of `evaluate` (agent_evaluator.py lines 89-110),
step by step in source order, yielding the body's result and its effect
trace. -/
def evalBody (e : BodyEnv) : BodyResult × List Effect :=
  if e.clean_ok = false then
    (.raised { message := "clean failed", recoverable := true }, [])
  else
    let effs0 := [Effect.cleanPrevious]
    match e.download with
    | .quietZone m => (.raised { message := m, recoverable := true }, effs0)
    | .fail m => (.raised { message := m, recoverable := true }, effs0)
    | .ok =>
      let effs1 := effs0 ++ [Effect.download]
      match e.mark with
      | .quietZone m => (.raised { message := m, recoverable := true }, effs1)
      | .fail m => (.raised { message := m, recoverable := true }, effs1)
      | .ok =>
        let effs2 := effs1 ++ [Effect.markInProgress]
        if e.module_source_found = false then
          -- agent_evaluator.py lines 196-200: explicit recoverable=False
          (.raised { message := "Task module not found", recoverable := false }, effs2)
        else if e.install_exit ≠ 0 then
          -- line 179: EvaluationError with default recoverable=True
          (.raised { message := "Module installation failed", recoverable := true }, effs2)
        else
          let effs3 := effs2 ++ [Effect.install]
          if e.eval_script_exists = false then
            -- lines 263-267: explicit recoverable=False
            (.raised { message := "Evaluation script not found", recoverable := false }, effs3)
          else if e.task_config_file_exists = false then
            -- lines 239-243: explicit recoverable=False
            (.raised { message := "Task config not found", recoverable := false }, effs3)
          else
            match e.run_result with
            | .timeout =>
              -- asyncio.TimeoutError re-raised by run_command_async, wrapped
              (.raised { message := "TimeoutError", recoverable := true }, effs3)
            | .exit c =>
              if c ≠ 0 then
                -- line 298: EvaluationError with default recoverable=True
                (.raised { message := "Evaluation script failed", recoverable := true }, effs3)
              else
                let effs4 := effs3 ++ [Effect.run]
                match collect_result e.workspace_result e.cwd_result with
                | .error err => (.raised err, effs4)
                | .ok (r, _) =>
                  let effs5 := effs4 ++ [Effect.collect]
                  match e.submit with
                  | .quietZone m => (.raised { message := m, recoverable := true }, effs5)
                  | .fail m => (.raised { message := m, recoverable := true }, effs5)
                  | .ok => (.success, effs5 ++ [Effect.submitOk r.score])

/-- `_cleanup` (agent_evaluator.py lines 365-385): uninstall the module, remove
the scratch files, remove the agent tree, then call
`clear_evaluation_in_progress` inside `try/except` — only that last call's
failures are caught and logged.  The uninstall step runs a subprocess through
`run_command_async`, which re-raises `asyncio.TimeoutError` on timeout
(helpers.py lines 231-233); such an exception propagates out of `_cleanup`
(the flag returned here is `false` in that case and the remaining cleanup
steps are skipped). -/
def cleanup (uninstall_ok : Bool) (clear_marker : ApiRes) : Bool × List Effect :=
  if uninstall_ok = false then
    (false, [])
  else
    (true,
      [Effect.cleanupUninstall, Effect.cleanupRemoveFiles, Effect.cleanupCleanRegistry,
       Effect.cleanupClearMarkerAttempt]
      ++ (match clear_marker with
          | .ok => [Effect.cleanupClearMarkerDone]
          | _ => []))

/-- What `evaluate` raises to the orchestrator: an `EvaluationError`, or any
other exception (only reachable from the `finally` cleanup, whose own
exceptions escape unwrapped). -/
inductive OrchExn
  | evalError (message : String) (recoverable : Bool)
  | otherExn (message : String)
  deriving DecidableEq, Repr

/-- Result of `evaluate` as the orchestrator sees it. -/
inductive EvalOutcome
  | success
  | raised (e : OrchExn)
  deriving DecidableEq, Repr

/-- Environment of one full `evaluate` call. -/
structure PipelineEnv where
  task_config_loaded : Bool      -- config.task_config is not None (_get_task_module)
  body : BodyEnv
  cleanup_uninstall_ok : Bool
  clear_marker : ApiRes
  deriving DecidableEq, Repr

/-- `try/finally` composition of outcomes (Python semantics): an exception
raised inside `finally` replaces the body's outcome; otherwise the body's
outcome — normal completion or its `EvaluationError` — stands. -/
def evalOutcomeOf : BodyResult → Bool → EvalOutcome
  | _, false => .raised (.otherExn "TimeoutError")
  | .success, true => .success
  | .raised err, true => .raised (.evalError err.message err.recoverable)

/-- `AgentEvaluator.evaluate` (agent_evaluator.py lines 76-112).
`_get_task_module()` is called on line 87, before the `try` block: when the
task configuration is not loaded it raises
`EvaluationError(recoverable=False)` and the `finally` cleanup does not run.
Otherwise the body runs, then `_cleanup` runs unconditionally, and the two
outcomes compose by `evalOutcomeOf`. -/
def evaluate (env : PipelineEnv) : EvalOutcome × List Effect :=
  if env.task_config_loaded = false then
    (.raised (.evalError "Task configuration not loaded" false), [])
  else
    let br := evalBody env.body
    let cr := cleanup env.cleanup_uninstall_ok env.clear_marker
    (evalOutcomeOf br.1 cr.1, br.2 ++ cr.2)

end Nepher

namespace Nepher

/-! ## Evaluation orchestrator (src/validator/evaluation/orchestrator.py)

`_process_pending_agents` (lines 115-165) fetches the pending agents and, for
each agent in list order, runs `evaluator.evaluate` inside a `try`:
`except QuietZoneError: raise`; `except EvaluationError`: count the failure and
call `submit_failed_evaluation` with score 0 and summary
`"[FAILED] " + e.message`, itself inside a `try` whose
`except QuietZoneError: raise` propagates (aborting the batch) and whose
blanket `except` swallows any other failure; `except Exception`: count the
failure and continue. -/

/-- One pending agent, with the environment its pipeline run will see and the
outcome of the orchestrator's `submit_failed_evaluation` call, should it be
made. -/
structure AgentTask where
  agent : String
  env : PipelineEnv
  failSubmit : ApiRes
  deriving Repr

/-- Result of `_process_pending_agents` over one batch: the propagated
`QuietZoneError` message if the batch was aborted, the tagged effect trace,
and the increments of the two counters. -/
structure BatchResult where
  abort : Option String
  effs : List (String × Effect)
  evaluated : Nat
  failed : Nat
  deriving Repr

/-- The per-agent loop of `_process_pending_agents` (orchestrator.py lines
134-165).  Note that `evaluate` only ever raises `EvaluationError` or a
cleanup exception (see `evaluate` above): the orchestrator's
`except QuietZoneError: raise` around `evaluate` (lines 142-143) has no
reachable trigger, because `evaluate`'s blanket `except Exception` has already
wrapped any `QuietZoneError` into `EvaluationError(recoverable=True)`. -/
def processAgents : List AgentTask → BatchResult
  | [] => { abort := none, effs := [], evaluated := 0, failed := 0 }
  | t :: rest =>
    let (out, effs) := evaluate t.env
    let tagged := effs.map (fun x => (t.agent, x))
    match out with
    | .success =>
      let r := processAgents rest
      { r with effs := tagged ++ r.effs, evaluated := r.evaluated + 1 }
    | .raised (.evalError msg _recoverable) =>
      -- `except EvaluationError` (lines 145-159): the recoverable flag is not
      -- consulted; submit_failed_evaluation(score=0, "[FAILED] " + message)
      match t.failSubmit with
      | .ok =>
        let r := processAgents rest
        { r with
            effs := tagged ++ [(t.agent, .submitFailed 0 ("[FAILED] " ++ msg))] ++ r.effs,
            failed := r.failed + 1 }
      | .quietZone m =>
        -- `except QuietZoneError: raise` (lines 156-157): aborts the batch
        { abort := some m, effs := tagged, evaluated := 0, failed := 1 }
      | .fail _ =>
        -- blanket `except Exception` (lines 158-159): swallowed, continue
        let r := processAgents rest
        { r with effs := tagged ++ r.effs, failed := r.failed + 1 }
    | .raised (.otherExn _) =>
      -- `except Exception` (lines 161-163): count and continue
      let r := processAgents rest
      { r with effs := tagged ++ r.effs, failed := r.failed + 1 }

/-- `run_evaluation_loop` (orchestrator.py lines 66-113), with the burn
callback absent (its default): each iteration re-checks the awaited period
predicate; a batch aborted by `QuietZoneError` breaks the loop
(`except QuietZoneError: ... break`, lines 104-106); any other iteration error
sleeps and continues.  The loop is driven here by the finite list of
(predicate value, fetched batch) pairs the backend produces. -/
def run_evaluation_loop : List (Bool × List AgentTask) → List (String × Effect)
  | [] => []
  | (p, batch) :: rest =>
    if p = false then []
    else
      let r := processAgents batch
      match r.abort with
      | some _ => r.effs
      | none => r.effs ++ run_evaluation_loop rest

/-- Whether an effect is a completed result submission for the agent
(a success submission or a failure submission). -/
def isSubmission : Effect → Bool
  | .submitOk _ => true
  | .submitFailed _ _ => true
  | _ => false

/-- Number of completed result submissions for agent `a` in a tagged trace. -/
def subCountFor (a : String) (effs : List (String × Effect)) : Nat :=
  (effs.filter (fun p => p.1 == a && isSubmission p.2)).length

end Nepher

namespace Nepher

/-- A body environment in which every pipeline step succeeds; the result file
sits at the canonical workspace path with score 87. -/
def okBody : BodyEnv :=
  { clean_ok := true
    download := .ok
    mark := .ok
    module_source_found := true
    install_exit := 0
    eval_script_exists := true
    task_config_file_exists := true
    run_result := .exit 0
    workspace_result := some { score := 87, summary := "ok" }
    cwd_result := none
    submit := .ok }

/-- A pipeline environment in which everything, cleanup included, succeeds. -/
def okEnv : PipelineEnv :=
  { task_config_loaded := true
    body := okBody
    cleanup_uninstall_ok := true
    clear_marker := .ok }

/-- Agent `a1` whose pipeline hits the non-recoverable
`EvaluationError("Task configuration not loaded", recoverable=False)`
from `_get_task_module`; its failure submission succeeds. -/
def taskA1 : AgentTask :=
  { agent := "a1"
    env := { okEnv with task_config_loaded := false }
    failSubmit := .ok }

/-- Agent `a2` whose pipeline fully succeeds. -/
def taskA2 : AgentTask :=
  { agent := "a2", env := okEnv, failSubmit := .ok }

end Nepher

/-- **C2 (counterexample).** The claim says a non-recoverable
`EvaluationError` aborts the whole evaluation pass.  On the code it does not:
in a batch whose first agent raises the non-recoverable error
`EvaluationError("Task configuration not loaded", recoverable=False)`, the
orchestrator submits a failed evaluation for that agent and proceeds to the
second agent, which is evaluated and submitted normally — the batch is not
aborted. -/
theorem c2_nonrecoverable_does_not_abort_counterexample :
    (Nepher.processAgents [Nepher.taskA1, Nepher.taskA2]).abort = none
    ∧ ("a1", Nepher.Effect.submitFailed 0 "[FAILED] Task configuration not loaded")
        ∈ (Nepher.processAgents [Nepher.taskA1, Nepher.taskA2]).effs
    ∧ ("a2", Nepher.Effect.submitOk 87)
        ∈ (Nepher.processAgents [Nepher.taskA1, Nepher.taskA2]).effs
    ∧ (Nepher.processAgents [Nepher.taskA1, Nepher.taskA2]).evaluated = 1
    ∧ (Nepher.processAgents [Nepher.taskA1, Nepher.taskA2]).failed = 1 := by
  decide

/-- **C2 (amended).** When the per-agent pipeline raises an `EvaluationError`,
the orchestrator behaves identically whatever the error's `recoverable` flag
says: it reports the agent to the backend as a failed evaluation with score 0
and `"[FAILED] " + message` as the summary, and continues with the remaining
agents; no `EvaluationError` aborts the evaluation pass (the flag is never
consulted). -/
theorem c2_every_evaluation_error_reported_and_continues
    (t : Nepher.AgentTask) (rest : List Nepher.AgentTask)
    (msg : String) (rec : Bool) (effs : List Nepher.Effect)
    (he : Nepher.evaluate t.env = (.raised (.evalError msg rec), effs))
    (hf : t.failSubmit = .ok) :
    Nepher.processAgents (t :: rest) =
      { abort := (Nepher.processAgents rest).abort
        effs := effs.map (fun x => (t.agent, x))
            ++ [(t.agent, .submitFailed 0 ("[FAILED] " ++ msg))]
            ++ (Nepher.processAgents rest).effs
        evaluated := (Nepher.processAgents rest).evaluated
        failed := (Nepher.processAgents rest).failed + 1 } := by
  simp [Nepher.processAgents, he, hf]

/-- Witness for the amended C2, at the concrete non-recoverable failure
`recoverable=False` of agent `a1` followed by agent `a2`. -/
theorem c2_every_evaluation_error_reported_and_continues_witness :
    Nepher.processAgents [Nepher.taskA1, Nepher.taskA2] =
      { abort := (Nepher.processAgents [Nepher.taskA2]).abort
        effs := ([] : List Nepher.Effect).map (fun x => (Nepher.taskA1.agent, x))
            ++ [(Nepher.taskA1.agent,
                  .submitFailed 0 ("[FAILED] " ++ "Task configuration not loaded"))]
            ++ (Nepher.processAgents [Nepher.taskA2]).effs
        evaluated := (Nepher.processAgents [Nepher.taskA2]).evaluated
        failed := (Nepher.processAgents [Nepher.taskA2]).failed + 1 } :=
  c2_every_evaluation_error_reported_and_continues
    Nepher.taskA1 [Nepher.taskA2] "Task configuration not loaded" false [] rfl rfl

namespace Nepher

/-- Agent `a1` whose result submission (`submit_evaluation` inside
`_submit_results`) hits the 409 quiet-zone conflict; the orchestrator's
subsequent `submit_failed_evaluation` for it succeeds. -/
def taskQuiet : AgentTask :=
  { agent := "a1"
    env := { okEnv with body := { okBody with submit := .quietZone "No submissions accepted right now" } }
    failSubmit := .ok }

end Nepher

/-- **C3.** A 409 is indeed mapped to the distinguished `QuietZoneError` and
is never retried by `_request` (first two conjuncts).  But a `QuietZoneError`
raised by an agent's submission does NOT abort the batch: `evaluate`'s blanket
`except Exception` (agent_evaluator.py lines 108-110) wraps it into
`EvaluationError(recoverable=True)`, so the orchestrator's
`except QuietZoneError: raise` around `evaluate` never fires; instead the
orchestrator submits a failed evaluation for that agent and — when that
submission goes through — continues with the remaining agents, and the
evaluation loop proceeds to its next iteration (remaining conjuncts: agent
`a2` is still evaluated and the loop processes the following batch). -/
theorem c3_quiet_zone_from_submission_is_swallowed :
    Nepher.handle_error_response 409 = .quietZone
    ∧ Nepher.shouldRetry (.api .quietZone) = false
    ∧ Nepher.request (fun _ => .response 409 true)
        = (.error (.direct (.api .quietZone)), 1)
    ∧ (Nepher.processAgents [Nepher.taskQuiet, Nepher.taskA2]).abort = none
    ∧ ("a1", Nepher.Effect.submitFailed 0 "[FAILED] No submissions accepted right now")
        ∈ (Nepher.processAgents [Nepher.taskQuiet, Nepher.taskA2]).effs
    ∧ ("a2", Nepher.Effect.submitOk 87)
        ∈ (Nepher.processAgents [Nepher.taskQuiet, Nepher.taskA2]).effs
    ∧ ("a2", Nepher.Effect.submitOk 87)
        ∈ Nepher.run_evaluation_loop
            [(true, [Nepher.taskQuiet]), (true, [Nepher.taskA2])] := by
  refine ⟨rfl, rfl, rfl, ?_, ?_, ?_, ?_⟩ <;> decide

/-- **C4 (counterexample).** The claim says failures inside cleanup are logged
but never re-raised.  Only the in-progress-marker clearing is protected: with
every pipeline step succeeding but the `pip uninstall` subprocess of
`_cleanup` timing out, the `asyncio.TimeoutError` escapes the `finally` block
— the run's outcome becomes that exception even though the evaluation and its
submission succeeded — and the in-progress marker clearing is never even
attempted. -/
theorem c4_cleanup_failure_reraised_counterexample :
    Nepher.evaluate { Nepher.okEnv with cleanup_uninstall_ok := false }
      = (.raised (.otherExn "TimeoutError"),
         [.cleanPrevious, .download, .markInProgress, .install, .run, .collect,
          .submitOk 87])
    ∧ Nepher.Effect.cleanupClearMarkerAttempt
        ∉ (Nepher.evaluate { Nepher.okEnv with cleanup_uninstall_ok := false }).2 := by
  decide

/-- **C4 (amended).** Whenever the task configuration is loaded (so the `try`
block is entered) and cleanup's own uninstall subprocess does not fail, the
`finally` cleanup runs for every outcome of the pipeline body — success and
every injected failure point (download, install, run timeout, missing result,
submit) alike: the module is uninstalled, the result/config scratch files and
the extracted agent tree are removed, and clearing of the in-progress marker
is attempted; and a failure of that clearing call is caught and logged, never
re-raised — the run's outcome is the same whatever the clear call does.
(Failures of cleanup's uninstall step, by contrast, do propagate — see the
counterexample.) -/
theorem c4_cleanup_runs_and_clear_failure_swallowed
    (env : Nepher.PipelineEnv) (v : Nepher.ApiRes)
    (h1 : env.task_config_loaded = true)
    (h2 : env.cleanup_uninstall_ok = true) :
    Nepher.Effect.cleanupUninstall ∈ (Nepher.evaluate env).2
    ∧ Nepher.Effect.cleanupRemoveFiles ∈ (Nepher.evaluate env).2
    ∧ Nepher.Effect.cleanupCleanRegistry ∈ (Nepher.evaluate env).2
    ∧ Nepher.Effect.cleanupClearMarkerAttempt ∈ (Nepher.evaluate env).2
    ∧ (Nepher.evaluate { env with clear_marker := v }).1 = (Nepher.evaluate env).1 := by
  have heffs : ∀ e : Nepher.PipelineEnv, e.task_config_loaded = true →
      (Nepher.evaluate e).2
        = (Nepher.evalBody e.body).2
          ++ (Nepher.cleanup e.cleanup_uninstall_ok e.clear_marker).2 := by
    intro e he
    simp [Nepher.evaluate, he]
  have hfst : ∀ e : Nepher.PipelineEnv, e.task_config_loaded = true →
      (Nepher.evaluate e).1
        = Nepher.evalOutcomeOf (Nepher.evalBody e.body).1 e.cleanup_uninstall_ok := by
    intro e he
    have hc : ∀ (cu : Bool) (c : Nepher.ApiRes), (Nepher.cleanup cu c).1 = cu := by
      intro cu c
      cases cu <;> simp [Nepher.cleanup]
    simp [Nepher.evaluate, he, hc]
  have hmem : ∀ x ∈ [Nepher.Effect.cleanupUninstall,
      Nepher.Effect.cleanupRemoveFiles, Nepher.Effect.cleanupCleanRegistry,
      Nepher.Effect.cleanupClearMarkerAttempt],
      x ∈ (Nepher.evaluate env).2 := by
    intro x hx
    rw [heffs env h1]
    refine List.mem_append_right _ ?_
    rcases env with ⟨tl, b, cu, cm⟩
    simp only at h2
    cases h2
    cases cm <;> simp [Nepher.cleanup] <;> simp at hx <;> tauto
  refine ⟨hmem _ (by simp), hmem _ (by simp), hmem _ (by simp), hmem _ (by simp), ?_⟩
  rw [hfst env h1, hfst { env with clear_marker := v } (by simpa using h1)]

/-- Witness for the amended C4: the all-success environment with the
clear-in-progress call failing. -/
theorem c4_cleanup_runs_and_clear_failure_swallowed_witness :
    Nepher.Effect.cleanupUninstall ∈ (Nepher.evaluate Nepher.okEnv).2
    ∧ Nepher.Effect.cleanupRemoveFiles ∈ (Nepher.evaluate Nepher.okEnv).2
    ∧ Nepher.Effect.cleanupCleanRegistry ∈ (Nepher.evaluate Nepher.okEnv).2
    ∧ Nepher.Effect.cleanupClearMarkerAttempt ∈ (Nepher.evaluate Nepher.okEnv).2
    ∧ (Nepher.evaluate { Nepher.okEnv with clear_marker := .fail "network down" }).1
        = (Nepher.evaluate Nepher.okEnv).1 :=
  c4_cleanup_runs_and_clear_failure_swallowed Nepher.okEnv (.fail "network down") rfl rfl

/-- **C8 (counterexample).** When the result file exists in neither location
after a successful engine exit, `_collect_result` raises
`EvaluationError("evaluation_result.json not generated")` using the
constructor's default `recoverable=True` — an ordinary recoverable per-agent
failure, not the fatal (non-recoverable) configuration error the claim
asserts. -/
theorem c8_missing_result_recoverable_counterexample :
    Nepher.collect_result none none
      = Except.error { message := "evaluation_result.json not generated", recoverable := true }
    ∧ Nepher.collect_result none none
      ≠ Except.error { message := "evaluation_result.json not generated", recoverable := false } := by
  constructor
  · rfl
  · intro h
    simp [Nepher.collect_result] at h

/-- **C8 (amended).** `_collect_result` reads the result artifact from either
of the two possible locations: the canonical workspace path wins when present;
otherwise the copy in the engine's own working directory is moved to the
canonical workspace path and used; if the file exists in neither location, the
error raised is an `EvaluationError` with the default `recoverable=True` — a
recoverable per-agent failure, not a fatal configuration error. -/
theorem c8_collect_result_two_locations
    (r : Nepher.ResultData) (cwd : Option Nepher.ResultData) :
    Nepher.collect_result (some r) cwd = .ok (r, false)
    ∧ Nepher.collect_result none (some r) = .ok (r, true)
    ∧ (∀ e, Nepher.collect_result none none = .error e → e.recoverable = true) := by
  refine ⟨rfl, rfl, ?_⟩
  intro e he
  simp [Nepher.collect_result] at he
  rw [← he]

/-- Witness for the amended C8 at concrete result data. -/
theorem c8_collect_result_two_locations_witness :
    Nepher.collect_result (some { score := 87, summary := "ok" }) none
      = .ok ({ score := 87, summary := "ok" }, false)
    ∧ Nepher.collect_result none (some { score := 87, summary := "ok" })
      = .ok ({ score := 87, summary := "ok" }, true)
    ∧ ({ message := "evaluation_result.json not generated", recoverable := true } :
        Nepher.EvalErr).recoverable = true :=
  ⟨(c8_collect_result_two_locations { score := 87, summary := "ok" } none).1,
   (c8_collect_result_two_locations { score := 87, summary := "ok" } none).2.1,
   (c8_collect_result_two_locations { score := 87, summary := "ok" } none).2.2 _ rfl⟩

namespace Nepher

/-- Number of completed result submissions in an (untagged) effect trace. -/
def subEffCount (effs : List Effect) : Nat := (effs.filter isSubmission).length

end Nepher

namespace Nepher

theorem subEffCount_append (l1 l2 : List Effect) :
    subEffCount (l1 ++ l2) = subEffCount l1 + subEffCount l2 := by
  simp [subEffCount, List.filter_append]

/-- The pipeline body performs exactly one submission when it completes
normally, and none when it raises. -/
theorem evalBody_cases (e : BodyEnv) :
    ((evalBody e).1 = .success ∧ subEffCount (evalBody e).2 = 1)
    ∨ ((∃ err, (evalBody e).1 = .raised err) ∧ subEffCount (evalBody e).2 = 0) := by
  unfold evalBody
  repeat' split <;> try simp [subEffCount, isSubmission, collect_result]

theorem cleanup_subEffCount (cu : Bool) (c : ApiRes) :
    subEffCount (cleanup cu c).2 = 0 := by
  cases cu <;> cases c <;> simp [cleanup, subEffCount, isSubmission]

theorem loaded_of_not_false (b : Bool) (h : ¬b = false) : b = true := by
  cases b <;> simp_all

theorem evaluate_subEffCount_le (env : PipelineEnv) :
    subEffCount (evaluate env).2 ≤ 1 := by
  by_cases ht : env.task_config_loaded = false
  · simp [evaluate, ht, subEffCount]
  · have ht' := loaded_of_not_false _ ht
    simp only [evaluate, ht', Bool.true_eq_false, if_false]
    rw [subEffCount_append, cleanup_subEffCount]
    rcases evalBody_cases env.body with ⟨_, hc⟩ | ⟨_, hc⟩ <;> omega

theorem evaluate_raised_evalError_subEffCount (env : PipelineEnv)
    (msg : String) (rec : Bool)
    (h : (evaluate env).1 = .raised (.evalError msg rec)) :
    subEffCount (evaluate env).2 = 0 := by
  by_cases ht : env.task_config_loaded = false
  · simp [evaluate, ht, subEffCount]
  · have ht' := loaded_of_not_false _ ht
    simp only [evaluate, ht', Bool.true_eq_false, if_false] at h ⊢
    rw [subEffCount_append, cleanup_subEffCount]
    rcases evalBody_cases env.body with ⟨hs, _⟩ | ⟨_, hc⟩
    · exfalso
      rw [hs] at h
      cases hcu : (cleanup env.cleanup_uninstall_ok env.clear_marker).1 <;>
        rw [hcu] at h <;> simp [evalOutcomeOf] at h
    · omega

end Nepher

namespace Nepher

theorem subCountFor_append (a : String) (l1 l2 : List (String × Effect)) :
    subCountFor a (l1 ++ l2) = subCountFor a l1 + subCountFor a l2 := by
  simp [subCountFor, List.filter_append]

theorem subCountFor_map_tag (a tag : String) (effs : List Effect) :
    subCountFor a (effs.map (fun x => (tag, x)))
      = if a = tag then subEffCount effs else 0 := by
  induction effs with
  | nil => simp [subCountFor, subEffCount]
  | cons x xs ih =>
    by_cases h : a = tag
    · subst h
      cases hx : isSubmission x <;>
        simp [subCountFor, subEffCount, List.filter, hx] at ih ⊢ <;> omega
    · have hba : (tag == a) = false := by
        simp [← ne_eq] at h ⊢
        exact fun hc => h hc.symm
      simp [subCountFor, List.filter, hba] at ih ⊢
      simpa [if_neg h] using ih

theorem subCountFor_single_failed (a tag : String) (sc : Int) (sm : String) :
    subCountFor a [(tag, Effect.submitFailed sc sm)] = if a = tag then 1 else 0 := by
  by_cases h : a = tag
  · subst h
    simp [subCountFor, List.filter, isSubmission]
  · have hba : (tag == a) = false := by
      simp [← ne_eq] at h ⊢
      exact fun hc => h hc.symm
    simp [subCountFor, List.filter, hba, h]

end Nepher

namespace Nepher

theorem subCountFor_cons_ne (a tag : String) (e : Effect)
    (l : List (String × Effect)) (h : a ≠ tag) :
    subCountFor a ((tag, e) :: l) = subCountFor a l := by
  have hba : (tag == a) = false := by
    simp [← ne_eq] at h ⊢
    exact fun hc => h hc.symm
  simp [subCountFor, List.filter, hba]

theorem subCountFor_cons_self_failed (a : String) (sc : Int) (sm : String)
    (l : List (String × Effect)) :
    subCountFor a ((a, Effect.submitFailed sc sm) :: l) = subCountFor a l + 1 := by
  simp [subCountFor, List.filter, isSubmission]

/-- The orchestrator never submits anything for an agent that is not in the
fetched pending batch. -/
theorem processAgents_not_mem (batch : List AgentTask) (a : String)
    (h : ∀ t ∈ batch, t.agent ≠ a) :
    subCountFor a (processAgents batch).effs = 0 := by
  induction batch with
  | nil => simp [processAgents, subCountFor]
  | cons t rest ih =>
    have hta : a ≠ t.agent := fun hc => (h t (by simp)) hc.symm
    have ihr := ih (fun t2 ht2 => h t2 (List.mem_cons_of_mem _ ht2))
    rcases hev : evaluate t.env with ⟨out, effs⟩
    have heffs : subCountFor a (effs.map (fun x => (t.agent, x))) = 0 := by
      rw [subCountFor_map_tag, if_neg hta]
    simp only [processAgents, hev]
    cases out with
    | success => simp [subCountFor_append, heffs, ihr]
    | raised e =>
      cases e with
      | evalError msg rec =>
        cases hfs : t.failSubmit with
        | ok =>
          have hc := subCountFor_cons_ne a t.agent
            (Effect.submitFailed 0 ("[FAILED] " ++ msg)) (processAgents rest).effs hta
          simp [subCountFor_append, heffs, hc, ihr]
        | quietZone m => simp [heffs]
        | fail m => simp [subCountFor_append, heffs, ihr]
      | otherExn m => simp [subCountFor_append, heffs, ihr]

/-- Over a batch of distinct agents, at most one completed result submission
is made per agent. -/
theorem processAgents_subCount_le (batch : List AgentTask) (a : String)
    (hnd : (batch.map AgentTask.agent).Nodup) :
    subCountFor a (processAgents batch).effs ≤ 1 := by
  induction batch with
  | nil => simp [processAgents, subCountFor]
  | cons t rest ih =>
    rw [List.map_cons, List.nodup_cons] at hnd
    obtain ⟨hna, hnd2⟩ := hnd
    have ihr := ih hnd2
    by_cases ha : a = t.agent
    · subst ha
      have hrest0 : subCountFor t.agent (processAgents rest).effs = 0 := by
        apply processAgents_not_mem
        intro t2 ht2 hc
        exact hna (hc ▸ List.mem_map_of_mem AgentTask.agent ht2)
      rcases hev : evaluate t.env with ⟨out, effs⟩
      have htag : subCountFor t.agent (effs.map (fun x => (t.agent, x))) = subEffCount effs := by
        rw [subCountFor_map_tag, if_pos rfl]
      have hle : subEffCount effs ≤ 1 := by
        have h2 := evaluate_subEffCount_le t.env
        rw [hev] at h2
        exact h2
      simp only [processAgents, hev]
      cases out with
      | success =>
        simp [subCountFor_append, htag, hrest0]
        omega
      | raised e =>
        cases e with
        | evalError msg rec =>
          have h0 : subEffCount effs = 0 := by
            have h2 := evaluate_raised_evalError_subEffCount t.env msg rec (by rw [hev])
            rw [hev] at h2
            exact h2
          cases hfs : t.failSubmit with
          | ok =>
            have hc := subCountFor_cons_self_failed t.agent 0 ("[FAILED] " ++ msg)
              (processAgents rest).effs
            simp [subCountFor_append, htag, h0, hc, hrest0]
          | quietZone m => simp [htag, h0]
          | fail m => simp [subCountFor_append, htag, h0, hrest0]
        | otherExn m =>
          simp [subCountFor_append, htag, hrest0]
          omega
    · rcases hev : evaluate t.env with ⟨out, effs⟩
      have htag : subCountFor a (effs.map (fun x => (t.agent, x))) = 0 := by
        rw [subCountFor_map_tag, if_neg ha]
      simp only [processAgents, hev]
      cases out with
      | success => simpa [subCountFor_append, htag] using ihr
      | raised e =>
        cases e with
        | evalError msg rec =>
          cases hfs : t.failSubmit with
          | ok =>
            have hc := subCountFor_cons_ne a t.agent
              (Effect.submitFailed 0 ("[FAILED] " ++ msg)) (processAgents rest).effs ha
            simpa [subCountFor_append, htag, hc] using ihr
          | quietZone m => simp [htag]
          | fail m => simpa [subCountFor_append, htag] using ihr
        | otherExn m => simpa [subCountFor_append, htag] using ihr

end Nepher

/-- **C9.** Within one batch of pending agents (distinct agent ids, as the
backend's pending list identifies agents), the orchestrator completes at most
one result submission per agent — one success submission or one failure
submission, never both, never more; and it submits only for agents present in
the fetched pending list, so when the pending-list response excludes the
agents this validator already completed in the phase, a further orchestrator
run never re-submits a result for any of those completed agents. -/
theorem c9_at_most_one_submission_per_agent :
    (∀ (batch : List Nepher.AgentTask) (a : String),
        (batch.map Nepher.AgentTask.agent).Nodup →
        Nepher.subCountFor a (Nepher.processAgents batch).effs ≤ 1)
    ∧ (∀ (batch : List Nepher.AgentTask) (completed : List String),
        (∀ t ∈ batch, t.agent ∉ completed) →
        ∀ a ∈ completed,
          Nepher.subCountFor a (Nepher.processAgents batch).effs = 0) := by
  constructor
  · exact fun batch a hnd => Nepher.processAgents_subCount_le batch a hnd
  · intro batch completed hexcl a ha
    apply Nepher.processAgents_not_mem
    intro t ht hc
    exact hexcl t ht (hc ▸ ha)

/-- Witness for C9: a concrete two-agent batch (one failing agent, one
succeeding agent) and a concrete completed-agents exclusion list. -/
theorem c9_at_most_one_submission_per_agent_witness :
    Nepher.subCountFor "a2"
        (Nepher.processAgents [Nepher.taskA1, Nepher.taskA2]).effs ≤ 1
    ∧ Nepher.subCountFor "done9"
        (Nepher.processAgents [Nepher.taskA1, Nepher.taskA2]).effs = 0 :=
  ⟨c9_at_most_one_submission_per_agent.1 [Nepher.taskA1, Nepher.taskA2] "a2" (by decide),
   c9_at_most_one_submission_per_agent.2 [Nepher.taskA1, Nepher.taskA2] ["done9"]
     (by decide) "done9" (by decide)⟩

namespace Nepher

/-! ## Reward settler (src/validator/reward/weight_setter.py)

`WeightSetter.run_reward` (lines 84-121) publishes the winner's weight via
`_set_weights`, then idles in `while is_reward_period_fn(): await
asyncio.sleep(60)` (lines 112-113), and after the loop publishes once more to
`BURN_UID` (line 117).  `is_reward_period_fn` is the `async def
is_reward_period` closure of src/validator/main.py lines 289-292; line 112
calls it WITHOUT `await`, so the loop condition is the truthiness of the
coroutine object the call returns — a non-`None` Python object, hence truthy,
whatever boolean the coroutine would have produced. -/

/-- `BURN_UID = 0` (weight_setter.py line 41). -/
def BURN_UID : Nat := 0

/-- Truthiness of the un-awaited coroutine object returned by calling the
async predicate: always `true`, independent of the predicate's value. -/
def coroutineTruthy (_ : Bool) : Bool := true

/-- The idle loop of `run_reward` (lines 112-113), driven by the values the
async predicate would produce on successive checks and a fuel bound on the
number of iterations observed: returns `true` iff the loop has exited within
`fuel` iterations. -/
def reward_idle_exits (is_reward_period_fn : Nat → Bool) : Nat → Bool
  | 0 => false
  | fuel + 1 =>
    if coroutineTruthy (is_reward_period_fn 0) then
      reward_idle_exits (fun i => is_reward_period_fn (i + 1)) fuel
    else
      true

/-- `run_reward`, abstracted to the sequence of weight-publication targets:
the initial `_set_weights(winner_uid)` call, then — only if the idle loop
exits — the final `_set_weights(BURN_UID)`.  The boolean records whether
`run_reward` returned within `fuel` observed loop iterations. -/
def run_reward (winner_uid : Nat) (is_reward_period_fn : Nat → Bool) (fuel : Nat) :
    List Nat × Bool :=
  if reward_idle_exits is_reward_period_fn fuel then
    ([winner_uid, BURN_UID], true)
  else
    ([winner_uid], false)

end Nepher

/-- **C5.** The claim says `run_reward` idles while the reward-period
predicate holds and, as soon as the predicate reports the period ended, exits
the idle loop and publishes one final burn-weight vector.  On the code the
idle loop tests `is_reward_period_fn()` without `await`: the coroutine object
is always truthy, so for every predicate — including one that reports the
period ended immediately — and every number of observed iterations, the loop
never exits, `run_reward` never returns, and the final burn publication is
never reached; only the initial winner publication happens. -/
theorem c5_reward_idle_loop_never_exits :
    ∀ (winner_uid : Nat) (is_reward_period_fn : Nat → Bool) (fuel : Nat),
      Nepher.run_reward winner_uid is_reward_period_fn fuel = ([winner_uid], false) := by
  have hloop : ∀ (fuel : Nat) (p : Nat → Bool), Nepher.reward_idle_exits p fuel = false := by
    intro fuel
    induction fuel with
    | zero => intro p; rfl
    | succ n ih =>
      intro p
      simp [Nepher.reward_idle_exits, Nepher.coroutineTruthy, ih]
  intro w p fuel
  simp [Nepher.run_reward, hloop]

namespace Nepher

/-! ## Winner resolution and weight publication
(weight_setter.py `_get_winner_uid` lines 123-169, `_set_weights` lines
171-241) -/

/-- The `WinnerInfo` response model (src/nepher_core/api/models.py lines
94-103): `winner_approved` defaults to `False`, `winner_hotkey` is optional. -/
structure WinnerInfo where
  winner_approved : Bool
  winner_hotkey : Option String
  deriving DecidableEq, Repr

/-- Python truthiness of an `Optional[str]`: `None` and the empty string are
falsy. -/
def pyTruthyOptStr : Option String → Bool
  | none => false
  | some s => s ≠ ""

/-- `find_uid_for_hotkey` (src/nepher_core/wallet/utils.py lines 207-224):
`metagraph.hotkeys.index(hotkey)`, i.e. the first index of the hotkey in the
metagraph's hotkey list, `None` when absent. -/
def find_uid_for_hotkey (hotkeys : List String) (hotkey : String) : Option Nat :=
  match hotkeys with
  | [] => none
  | h :: rest =>
    if h = hotkey then some 0
    else (find_uid_for_hotkey rest hotkey).map (· + 1)

/-- `_get_winner_uid` (weight_setter.py lines 123-169): `BURN_UID` when the
winner query fails, when no winner is approved or the hotkey is falsy, or when
the hotkey is not in the metagraph; otherwise the winner's index. -/
def get_winner_uid (fetch : Except String WinnerInfo) (hotkeys : List String) : Nat :=
  match fetch with
  | .error _ => BURN_UID
  | .ok w =>
    if w.winner_approved = false ∨ pyTruthyOptStr w.winner_hotkey = false then
      BURN_UID
    else
      match w.winner_hotkey with
      | none => BURN_UID
      | some hk =>
        match find_uid_for_hotkey hotkeys hk with
        | none => BURN_UID
        | some uid => uid

/-- The weight vector built by `_set_weights` (lines 188-190):
`weights = [0.0] * len(uids); weights[target_uid] = 1.0`. -/
def weight_vector (n : Nat) (target : Nat) : List ℚ :=
  (List.replicate n (0 : ℚ)).set target 1

/-- Outcome of one `subtensor.set_weights` call: `(True, msg)`, `(False, msg)`,
or a raised exception. -/
inductive SWRes
  | success
  | failure (msg : String)
  | exn (msg : String)
  deriving DecidableEq, Repr

/-- The retry loop of `_set_weights` (lines 198-221): attempts are numbered
from 1; a `success` returns immediately, a `(False, msg)` result and a raised
exception are both treated as a failed attempt.  Returns the list of vectors
passed to `subtensor.set_weights` and whether an attempt succeeded. -/
def set_weights_aux (v : List ℚ) (outcomes : Nat → SWRes) (attempt : Nat) :
    Nat → List (List ℚ) × Bool
  | 0 => ([], false)
  | remaining + 1 =>
    match outcomes attempt with
    | .success => ([v], true)
    | _ =>
      let r := set_weights_aux v outcomes (attempt + 1) remaining
      (v :: r.1, r.2)

/-- `_set_weights` (lines 171-241): retry up to `max_attempts`; if every
attempt fails and the target is not already `BURN_UID`, make exactly one
fallback `set_weights` call with the burn vector, inside `try/except` — its
outcome (`fallbackOutcome`), success or exception, does not change the
function's result. -/
def set_weights (n target maxAttempts : Nat) (outcomes : Nat → SWRes)
    (fallbackOutcome : SWRes) : List (List ℚ) × Bool :=
  let v := weight_vector n target
  let r := set_weights_aux v outcomes 1 maxAttempts
  if r.2 then r
  else if target ≠ BURN_UID then (r.1 ++ [weight_vector n BURN_UID], false)
  else r

end Nepher

namespace Nepher

theorem find_uid_none_of_not_mem (hotkeys : List String) (hk : String)
    (h : hk ∉ hotkeys) : find_uid_for_hotkey hotkeys hk = none := by
  induction hotkeys with
  | nil => rfl
  | cons x rest ih =>
    have hx : x ≠ hk := fun hc => h (by simp [hc])
    have hr : hk ∉ rest := fun hc => h (by simp [hc])
    simp [find_uid_for_hotkey, hx, ih hr]

theorem set_weights_aux_all_fail (v : List ℚ) (outcomes : Nat → SWRes) :
    ∀ (m s : Nat), (∀ i, s ≤ i → i < s + m → outcomes i ≠ .success) →
      set_weights_aux v outcomes s m = (List.replicate m v, false) := by
  intro m
  induction m with
  | zero => intro s _; rfl
  | succ k ih =>
    intro s h
    have h0 : outcomes s ≠ .success := h s (le_refl s) (by omega)
    cases ho : outcomes s with
    | success => exact absurd ho h0
    | failure m2 =>
      have hr := ih (s + 1) (fun i h1 h2 => h i (by omega) (by omega))
      simp [set_weights_aux, ho, hr, List.replicate_succ]
    | exn m2 =>
      have hr := ih (s + 1) (fun i h1 h2 => h i (by omega) (by omega))
      simp [set_weights_aux, ho, hr, List.replicate_succ]

end Nepher

/-- **C6.** Winner resolution and weight publication: (a) a failing winner
query, (b) an unapproved winner, and (c) an approved winner whose hotkey is
absent from the weight snapshot all resolve to the burn target `BURN_UID = 0`;
(d) the vector published for the burn target puts full weight on index 0 and
zero elsewhere; (e) when every one of the configured attempts fails and the
intended target is not the burn target, exactly one extra fallback publication
of the burn vector is made; (f) the outcome of that best-effort fallback call
— including a raised exception — never changes `_set_weights`' result (it is
caught and logged, not propagated). -/
theorem c6_winner_fallback_and_burn :
    (∀ (e : String) (hot : List String),
        Nepher.get_winner_uid (.error e) hot = Nepher.BURN_UID)
    ∧ (∀ (w : Nepher.WinnerInfo) (hot : List String),
        w.winner_approved = false →
        Nepher.get_winner_uid (.ok w) hot = Nepher.BURN_UID)
    ∧ (∀ (w : Nepher.WinnerInfo) (hot : List String) (hk : String),
        w.winner_hotkey = some hk → hk ∉ hot →
        Nepher.get_winner_uid (.ok w) hot = Nepher.BURN_UID)
    ∧ (∀ n : Nat, 0 < n →
        Nepher.weight_vector n Nepher.BURN_UID = 1 :: List.replicate (n - 1) 0)
    ∧ (∀ (n t m : Nat) (o : Nat → Nepher.SWRes) (f : Nepher.SWRes),
        (∀ i, 1 ≤ i → i ≤ m → o i ≠ .success) → t ≠ Nepher.BURN_UID →
        Nepher.set_weights n t m o f
          = (List.replicate m (Nepher.weight_vector n t)
              ++ [Nepher.weight_vector n Nepher.BURN_UID], false))
    ∧ (∀ (n t m : Nat) (o : Nat → Nepher.SWRes) (f1 f2 : Nepher.SWRes),
        Nepher.set_weights n t m o f1 = Nepher.set_weights n t m o f2) := by
  refine ⟨?_, ?_, ?_, ?_, ?_, ?_⟩
  · intro e hot
    rfl
  · intro w hot h
    simp [Nepher.get_winner_uid, h]
  · rintro ⟨app, whk⟩ hot hk hw hmem
    simp only at hw
    subst hw
    by_cases happ : app = false
    · simp [Nepher.get_winner_uid, happ]
    · have happ2 : app = true := by cases app <;> simp_all
      by_cases hemp : hk = ""
      · subst hemp
        simp [Nepher.get_winner_uid, happ2, Nepher.pyTruthyOptStr]
      · have htr : Nepher.pyTruthyOptStr (some hk) = true := by
          simp [Nepher.pyTruthyOptStr, hemp]
        simp [Nepher.get_winner_uid, happ2, htr,
          Nepher.find_uid_none_of_not_mem hot hk hmem]
  · intro n hn
    cases n with
    | zero => omega
    | succ m => simp [Nepher.weight_vector, Nepher.BURN_UID, List.replicate_succ]
  · intro n t m o f hfail ht
    have haux := Nepher.set_weights_aux_all_fail (Nepher.weight_vector n t) o m 1
      (fun i h1 h2 => hfail i h1 (by omega))
    simp [Nepher.set_weights, haux, ht]
  · intro n t m o f1 f2
    rfl

/-- Witness for C6 at concrete data: an unapproved winner, a winner hotkey
missing from a concrete snapshot, a 3-element burn vector, and a 2-attempt
all-fail publication with an exception-raising fallback. -/
theorem c6_winner_fallback_and_burn_witness :
    Nepher.get_winner_uid (.error "http boom") ["hkA", "hkB"] = Nepher.BURN_UID
    ∧ Nepher.get_winner_uid
        (.ok { winner_approved := false, winner_hotkey := some "hkA" }) ["hkA"]
        = Nepher.BURN_UID
    ∧ Nepher.get_winner_uid
        (.ok { winner_approved := true, winner_hotkey := some "hkW" }) ["hkA", "hkB"]
        = Nepher.BURN_UID
    ∧ Nepher.weight_vector 3 Nepher.BURN_UID = 1 :: List.replicate 2 0
    ∧ Nepher.set_weights 3 1 2 (fun _ => .exn "subtensor down") (.exn "fallback down")
        = (List.replicate 2 (Nepher.weight_vector 3 1)
            ++ [Nepher.weight_vector 3 Nepher.BURN_UID], false)
    ∧ Nepher.set_weights 3 1 2 (fun _ => .exn "subtensor down") (.exn "fallback down")
        = Nepher.set_weights 3 1 2 (fun _ => .exn "subtensor down") .success :=
  ⟨c6_winner_fallback_and_burn.1 "http boom" ["hkA", "hkB"],
   c6_winner_fallback_and_burn.2.1 _ ["hkA"] rfl,
   c6_winner_fallback_and_burn.2.2.1 _ ["hkA", "hkB"] "hkW" rfl (by decide),
   c6_winner_fallback_and_burn.2.2.2.1 3 (by omega),
   c6_winner_fallback_and_burn.2.2.2.2.1 3 1 2 _ _
     (fun i h1 h2 => by simp) (by decide),
   c6_winner_fallback_and_burn.2.2.2.2.2 3 1 2 _ _ _⟩
